import Mathlib

/-!
Verification development for the hsfm historical structure-from-motion
pipeline (hsfm/pipeline/pipeline.py, hsfm/batch/pipeline.py,
hsfm/batch/batch.py).  The orchestration core is embedded shallowly: camera
metadata snapshots are lists of records, the filesystem is an association
list from path strings to file contents, and the external collaborators
(Metashape-style SfM engine, ASP-style point-cloud aligner, Nuth-Kaab-style
co-registration tool, CRS reprojection) are oracle functions bundled in an
`Env` structure, mirroring the contracts the source code relies on.
-/

namespace HSFM

/-- Errors raised by the embedded Python code.  `invalidFileBuffer` models
`pandas.read_csv` raising on a non-path argument (a tuple or `None`),
`fileNotFound` models a read of a missing or wrongly-typed file, and
`unboundLocal` models Python's `UnboundLocalError`. -/
inductive PyErr where
  | invalidFileBuffer
  | fileNotFound
  | unboundLocal
deriving Repr, DecidableEq, Inhabited

/-- Decidable equality of `Except` values, so that concrete pipeline
outcomes can be settled by `decide`. -/
instance exceptDecEq {ε α : Type} [DecidableEq ε] [DecidableEq α] :
    DecidableEq (Except ε α) := fun a b =>
  match a, b with
  | Except.error e1, Except.error e2 =>
    decidable_of_iff (e1 = e2) (by
      constructor
      · intro h; rw [h]
      · intro h; injection h)
  | Except.error _, Except.ok _ => isFalse (fun h => Except.noConfusion h)
  | Except.ok _, Except.error _ => isFalse (fun h => Except.noConfusion h)
  | Except.ok a1, Except.ok a2 =>
    decidable_of_iff (a1 = a2) (by
      constructor
      · intro h; rw [h]
      · intro h; injection h)

/-- One camera-metadata record: geodetic position and orientation, as the
columns of the metadata CSVs manipulated by the pipeline. -/
structure CamRec where
  lat : Int
  lon : Int
  alt : Int
  yaw : Int
  pitch : Int
  roll : Int
deriving Repr, DecidableEq, Inhabited

/-- A camera-metadata snapshot: the rows of one metadata CSV. -/
abbrev Snapshot := List CamRec

/-- Pipeline._reset_yaw_pitch_roll, row level: df["yaw"] = df["pitch"] = df["roll"] = 0. -/
def resetYprRec (r : CamRec) : CamRec :=
  { r with yaw := 0, pitch := 0, roll := 0 }

/-- Pipeline._reset_yaw_pitch_roll applied to a whole snapshot. -/
def resetYpr (s : Snapshot) : Snapshot :=
  s.map resetYprRec

/-- Axis-aligned raster bounds, as returned by `rio.bounds()` and consumed by
`shapely.geometry.box`. -/
structure Bounds where
  xmin : Int
  ymin : Int
  xmax : Int
  ymax : Int
deriving Repr, DecidableEq, Inhabited

/-- The `ref_box.contains(src_box)` test of `_pc_align_routine` and
`_nuth_kaab_align_routine`, for axis-aligned boxes: the source box lies
inside the reference box. -/
def Bounds.containsB (ref src : Bounds) : Bool :=
  decide (ref.xmin ≤ src.xmin) && decide (src.xmax ≤ ref.xmax) &&
  decide (ref.ymin ≤ src.ymin) && decide (src.ymax ≤ ref.ymax)

/-- A raster file (reference DEM, extracted DEM, ...): its footprint plus an
opaque content identifier. -/
structure Raster where
  bounds : Bounds
  data : Int
deriving Repr, DecidableEq, Inhabited

/-- Opaque dense point cloud produced by the SfM engine. -/
structure PC where
  id : Int
deriving Repr, DecidableEq, Inhabited

/-- Opaque rigid transform produced by the point-cloud aligner. -/
structure Transform where
  id : Int
deriving Repr, DecidableEq, Inhabited

/-- Translation-only co-registration shift (dx, dy, dz) together with the
EPSG code of the horizontal CRS it is expressed in. -/
structure Shift where
  dx : Int
  dy : Int
  dz : Int
  crs : Nat
deriving Repr, DecidableEq, Inhabited

/-- Content of a file on disk. -/
inductive Content where
  | snap (s : Snapshot)
  | raster (r : Raster)
  | plot (title : String)
  | other (id : Int)
deriving Repr, DecidableEq, Inhabited

/-- The filesystem: an association list from path to content; the most
recent write of a path is listed first. -/
abbrev World := List (String × Content)

/-- Write (create or overwrite) a file. -/
def write (w : World) (p : String) (c : Content) : World :=
  (p, c) :: w

/-- Read a file: the most recent write of the path wins. -/
def lookup : World → String → Option Content
  | [], _ => none
  | e :: rest, p => if e.1 = p then some e.2 else lookup rest p

/-- Read a metadata CSV from disk (pd.read_csv on a path). -/
def readSnap (w : World) (p : String) : Except PyErr Snapshot :=
  match lookup w p with
  | some (Content.snap s) => Except.ok s
  | _ => Except.error PyErr.fileNotFound

/-- Open a raster file from disk (rix.open_rasterio / file input of the
alignment tools). -/
def readRaster (w : World) (p : String) : Except PyErr Raster :=
  match lookup w p with
  | some (Content.raster r) => Except.ok r
  | _ => Except.error PyErr.fileNotFound

/-- Two-argument os.path.join for the relative-style paths the pipeline
builds: insert a separator unless the first component already ends in
one. -/
def pathJoin (a b : String) : String :=
  if a.data.getLast? = some '/' then a ++ b else a ++ "/" ++ b

/-- The Python value held in `self.input_images_metadata_file`.  The source
assigns it a path string at construction, but `run_multi` later rebinds it
to whatever `run` returned: either the (path, unaligned-dataframe) tuple or
`None`, so the embedded field is a sum. -/
inductive MetaRef where
  | path (p : String)
  | pathAndFrame (p : String) (s : Snapshot)
  | pynone
deriving Repr, DecidableEq, Inhabited

/-- The path held by a `MetaRef`, defaulting to the empty string. -/
def metaRefPathD : MetaRef → String
  | MetaRef.path p => p
  | MetaRef.pathAndFrame p _ => p
  | MetaRef.pynone => ""

/-- The mutable fields of the `Pipeline` object (hsfm/pipeline/pipeline.py,
`Pipeline.__init__`). -/
structure PState where
  input_images_path : String
  reference_dem : String
  image_matching_accuracy : Nat
  densecloud_quality : Nat
  output_DEM_resolution : Int
  project_name : String
  output_path : String
  input_images_metadata_file : MetaRef
  rotation_enabled : Bool
  original_output_path : String
  bundle_adjusted_metadata_file : String
  bundle_adjusted_unaligned_metadata_file : String
  aligned_bundle_adjusted_metadata_file : String
  nuthed_aligned_bundle_adjusted_metadata_file : String
  clipped_reference_dem_file : String
deriving Repr, DecidableEq, Inhabited

/-- Pipeline.__init__: stores the configuration and derives the artifact
paths from the output path (including the clipped reference DEM path, which
is derived once here and, unlike the metadata paths, never rederived). -/
def mkPipeline (input_images_path reference_dem : String)
    (image_matching_accuracy densecloud_quality : Nat)
    (output_DEM_resolution : Int)
    (project_name output_path input_images_metadata_file : String)
    (rotation_enabled : Bool) : PState :=
  { input_images_path := input_images_path
    reference_dem := reference_dem
    image_matching_accuracy := image_matching_accuracy
    densecloud_quality := densecloud_quality
    output_DEM_resolution := output_DEM_resolution
    project_name := project_name
    output_path := output_path
    input_images_metadata_file := MetaRef.path input_images_metadata_file
    rotation_enabled := rotation_enabled
    original_output_path := output_path
    bundle_adjusted_metadata_file :=
      pathJoin output_path "metaflow_bundle_adj_metadata.csv"
    bundle_adjusted_unaligned_metadata_file :=
      pathJoin output_path "metaflow_bundle_adj_unaligned_metadata.csv"
    aligned_bundle_adjusted_metadata_file :=
      pathJoin output_path "aligned_bundle_adj_metadata.csv"
    nuthed_aligned_bundle_adjusted_metadata_file :=
      pathJoin output_path "nuth_aligned_bundle_adj_metadata.csv"
    clipped_reference_dem_file :=
      pathJoin output_path "reference_dem_clipped.tif" }

/-- Pipeline._update_output_paths: rebinds the output path and the four
metadata CSV paths.  Faithful to the source, `clipped_reference_dem_file`
and `original_output_path` are left untouched. -/
def updateOutputPaths (st : PState) (new_output_path : String) : PState :=
  { st with
    output_path := new_output_path
    bundle_adjusted_metadata_file :=
      pathJoin new_output_path "metaflow_bundle_adj_metadata.csv"
    bundle_adjusted_unaligned_metadata_file :=
      pathJoin new_output_path "metaflow_bundle_adj_unaligned_metadata.csv"
    aligned_bundle_adjusted_metadata_file :=
      pathJoin new_output_path "aligned_bundle_adj_metadata.csv"
    nuthed_aligned_bundle_adjusted_metadata_file :=
      pathJoin new_output_path "nuth_aligned_bundle_adj_metadata.csv" }

/-- Pipeline._set_input_images_metadata_file. -/
def setInputImagesMetadataFile (st : PState) (updated_cameras : MetaRef) : PState :=
  { st with input_images_metadata_file := updated_cameras }

/-- The per-iteration output directory built inside `run_multi`:
os.path.join(self.original_output_path, str(i) + "/"). -/
def iterDir (st : PState) (i : Nat) : String :=
  pathJoin st.original_output_path (Nat.repr i ++ "/")

/-- The external collaborators, as content-deterministic oracles.
`solve` is hsfm.metashape.images2las followed by update_ba_camera_metadata
(project id, point cloud, bundle-adjusted snapshot, unaligned cameras);
`rasterize` is hsfm.asp.point2dem; `clip` is hsfm.utils.clip_reference_dem;
`pcAlign` is hsfm.asp.pc_align_p2p_sp2p; `metadataTransform` is
hsfm.core.metadata_transform; `demAlign` is hsfm.utils.dem_align_custom
together with the shift record of the Nuth-Kaab JSON output; `reproject`
is the geopandas `to_crs` reprojection between two EPSG codes. -/
structure Env where
  activated : Bool
  solve : Snapshot → Bool → Int × PC × Snapshot × Snapshot
  rasterize : PC → Raster
  clip : Raster → Raster → Raster
  pcAlign : Raster → Raster → Raster × Transform
  metadataTransform : Snapshot → Transform → Snapshot
  demAlign : Raster → Raster → Raster × Raster × Shift
  reproject : Nat → Nat → Int × Int → Int × Int

/-- EPSG code of the geodetic CRS the snapshots are stored in. -/
def epsgWGS84 : Nat := 4326

/-- The EPSG code hardcoded in
hsfm/batch/pipeline.py::__apply_nuth_transform_and_update_camera_data
(`gdf = gdf.to_crs(\"EPSG:32610\")`, flagged by a TODO in the source). -/
def epsgUTM10 : Nat := 32610

/-- Apply a co-registration shift to one record via an explicitly given
horizontal CRS: reproject (lon, lat) from WGS84 into that CRS, add
(dx, dy) there, reproject back, and add dz to the altitude directly. -/
def applyShiftRecordVia (reproject : Nat → Nat → Int × Int → Int × Int)
    (crs : Nat) (sh : Shift) (r : CamRec) : CamRec :=
  let q := reproject epsgWGS84 crs (r.lon, r.lat)
  let q2 := reproject crs epsgWGS84 (q.1 + sh.dx, q.2 + sh.dy)
  { r with lon := q2.1, lat := q2.2, alt := r.alt + sh.dz }

/-- The shift application of
hsfm/batch/pipeline.py::__apply_nuth_transform_and_update_camera_data:
the intermediate CRS is the hardcoded EPSG:32610, whatever CRS the shift
carries; dz is added to the altitude without any vertical reprojection.
It also stands in for hsfm.utils.apply_nuth_transform_to_camera_metadata,
which hsfm/pipeline/pipeline.py calls but which is not under src. -/
def applyNuthShift (reproject : Nat → Nat → Int × Int → Int × Int)
    (sh : Shift) (s : Snapshot) : Snapshot :=
  s.map (applyShiftRecordVia reproject epsgUTM10 sh)

/-- The shift application as the spec sentence words it (for comparison
with `applyNuthShift`): the intermediate CRS is the CRS the shift is
expressed in. -/
def applyShiftSpecCRS (reproject : Nat → Nat → Int × Int → Int × Int)
    (sh : Shift) (s : Snapshot) : Snapshot :=
  s.map (applyShiftRecordVia reproject sh.crs sh)

/-- World plus the ordered list of writes performed so far (oldest first),
used to instrument one `run`. -/
structure WT where
  w : World
  tr : List (String × Content)
deriving Repr, DecidableEq, Inhabited

/-- Perform one file write and record it. -/
def wput (ws : WT) (p : String) (c : Content) : WT :=
  { w := write ws.w p c, tr := ws.tr ++ [(p, c)] }

/-- Instrumentation of one `Pipeline.run`: the rotation flag passed to the
SfM engine, the two containment decisions, the reference rasters actually
consumed by the point-cloud-alignment and co-registration stages, the
clipped raster written at step 5 (if any), the reference raster read at
step 5, and the ordered write log. -/
structure RunTrace where
  rotationFlag : Bool
  c5 : Bool
  c8 : Bool
  pcAlignRefUsed : Raster
  nuthRefUsed : Raster
  refDemAt5 : Raster
  clippedWritten : Option Raster
  writes : List (String × Content)
deriving Repr, DecidableEq, Inhabited

/-- The value of one successful, activated `Pipeline.run`: the returned
pair (nuth-aligned metadata path, unaligned-camera table), the filesystem
afterwards, and the trace. -/
structure RunResult where
  nuthedPath : String
  unaligned : Snapshot
  world : World
  trace : RunTrace
deriving Repr, DecidableEq, Inhabited

/-- Pipeline.run (hsfm/pipeline/pipeline.py lines 178-242), with its helper
methods inlined in source order.

* Not-activated branch: the source prints and then evaluates the bare name
  `exit` (without calling it), so the method simply returns Python `None`
  with no file touched; embedded as `Except.ok none`.
* Activated branch, in order: read the input metadata CSV (the `print` at
  line 195 is the first read and raises if the input reference is not a
  path); `_run_metashape` first rewrites that same CSV in place with
  yaw/pitch/roll zeroed (`_reset_yaw_pitch_roll`), then invokes the SfM
  engine; orthomosaic extraction (when requested) and DEM extraction;
  `_update_camera_data` persists the bundle-adjusted and unaligned tables;
  offset plot #1; `_pc_align_routine` re-opens the reference DEM, clips it
  to the new DEM's footprint iff the reference box contains the extracted
  DEM's box, and aligns; `_apply_transform_and_update_camera_data` writes
  the aligned table and then re-reads and re-writes it with identical
  content; offset plot #2; `_nuth_kaab_align_routine` re-opens the
  reference DEM and redoes the containment test against the aligned DEM,
  reading the clipped file from disk when it holds;
  `_apply_nuth_transform_and_update_camera_data` applies the
  co-registration shift (the write of the final snapshot is modelled from
  the spec, stage 9, since hsfm.utils.apply_nuth_transform_to_camera_metadata
  is not under src; the shift arithmetic follows the in-repo twin
  hsfm/batch/pipeline.py); offset plots #3 and #4; optional final
  orthomosaic; return of the tuple
  (self.nuthed_aligned_bundle_adjusted_metadata_file, unaligned_cameras_df).

The collaborators' own scratch files (Metashape project, las, pc_align
directory) are kept opaque; the orthomosaic exports are modelled as single
writes under the output path. -/
def run (env : Env) (st : PState) (w : World)
    (rotationEnabled exportOrthomosaic : Bool) :
    Except PyErr (Option RunResult) :=
  if env.activated then
    match st.input_images_metadata_file with
    | MetaRef.pathAndFrame _ _ => Except.error PyErr.invalidFileBuffer
    | MetaRef.pynone => Except.error PyErr.invalidFileBuffer
    | MetaRef.path ip =>
      match readSnap w ip with
      | Except.error e => Except.error e
      | Except.ok s0 =>
        let zeroed := resetYpr s0
        let ws := wput { w := w, tr := [] } ip (Content.snap zeroed)
        let solved := env.solve zeroed rotationEnabled
        let projectId := solved.1
        let baSnap := solved.2.2.1
        let unalignedSnap := solved.2.2.2
        let ws := if exportOrthomosaic then
            wput ws (pathJoin st.output_path "orthomosaic.tif")
              (Content.other projectId)
          else ws
        let dem := env.rasterize solved.2.1
        let ws := wput ws st.bundle_adjusted_metadata_file (Content.snap baSnap)
        let ws := wput ws st.bundle_adjusted_unaligned_metadata_file
          (Content.snap unalignedSnap)
        let ws := wput ws (pathJoin st.output_path "initial_vs_bundle_adj_offsets.png")
          (Content.plot "Initial vs Bundle Adjusted")
        match readRaster ws.w st.reference_dem with
        | Except.error e => Except.error e
        | Except.ok ref5 =>
          let c5 := Bounds.containsB ref5.bounds dem.bounds
          let clipped := env.clip dem ref5
          let ws := if c5 then
              wput ws st.clipped_reference_dem_file (Content.raster clipped)
            else ws
          let pcRef := if c5 then clipped else ref5
          let alignedPair := env.pcAlign dem pcRef
          let alignedDem := alignedPair.1
          let alignedSnap := env.metadataTransform baSnap alignedPair.2
          let ws := wput ws st.aligned_bundle_adjusted_metadata_file
            (Content.snap alignedSnap)
          let ws := wput ws st.aligned_bundle_adjusted_metadata_file
            (Content.snap alignedSnap)
          let ws := wput ws (pathJoin st.output_path "bundle_adj__vs_bundle_adj_and_aligned_offsets.png")
            (Content.plot "Bundle Adjusted vs Bundle Adjusted and Aligned")
          match readRaster ws.w st.reference_dem with
          | Except.error e => Except.error e
          | Except.ok ref8 =>
            let c8 := Bounds.containsB ref8.bounds alignedDem.bounds
            let nuthRefE := if c8 then
                readRaster ws.w st.clipped_reference_dem_file
              else Except.ok ref8
            match nuthRefE with
            | Except.error e => Except.error e
            | Except.ok nuthRef =>
              let aligned3 := env.demAlign nuthRef alignedDem
              let nuthedSnap := applyNuthShift env.reproject aligned3.2.2 alignedSnap
              let ws := wput ws st.nuthed_aligned_bundle_adjusted_metadata_file
                (Content.snap nuthedSnap)
              let ws := wput ws (pathJoin st.output_path "bundle_adj_and_aligned_vs_bundle_adj_and_aligned_and_nuthed_offsets.png")
                (Content.plot "Bundle Adjusted + Aligned vs Bundle Adjusted + Aligned + Nuth-Aligned")
              let ws := wput ws (pathJoin st.output_path "og_vs_final_offsets.png")
                (Content.plot "Original vs Bundle Adjusted + Aligned + Nuth-Aligned")
              let ws := if exportOrthomosaic then
                  wput ws (pathJoin st.output_path "orthomosaic_final.tif")
                    (Content.other aligned3.2.1.data)
                else ws
              Except.ok (some
                { nuthedPath := st.nuthed_aligned_bundle_adjusted_metadata_file
                  unaligned := unalignedSnap
                  world := ws.w
                  trace :=
                    { rotationFlag := rotationEnabled
                      c5 := c5
                      c8 := c8
                      pcAlignRefUsed := pcRef
                      nuthRefUsed := nuthRef
                      refDemAt5 := ref5
                      clippedWritten := if c5 then some clipped else none
                      writes := ws.tr } })
  else
    Except.ok none

/-- The observable outcome of `Pipeline.run_multi`: the value of the Python
`updated_cameras` variable finally returned (`none` embeds Python `None`),
the pipeline object's fields afterwards, the filesystem, the per-iteration
traces (`none` for a not-activated iteration), and the rotation flag passed
to each iteration's `run`. -/
structure MultiOut where
  ret : Option (String × Snapshot)
  stFinal : PState
  world : World
  traces : List (Option RunTrace)
  flags : List Bool
deriving Repr, DecidableEq, Inhabited

/-- The loop of `Pipeline.run_multi`.  `remaining` counts iterations still
to do, `i` is the Python loop index, `rot` the current rotation flag, and
`last` the current binding of the Python local `updated_cameras` (`none`
while it is still unbound).  Each iteration rebinds the output paths to the
per-index directory, calls `run`, and stores the entire value `run`
returned into `input_images_metadata_file`: the (path, dataframe) tuple on
success, Python `None` on the not-activated branch.  When the loop ends,
returning a never-bound `updated_cameras` is an `UnboundLocalError`. -/
def runMultiGo (env : Env) (exportOrthomosaic : Bool) :
    Nat → Nat → Bool → PState → World → List (Option RunTrace) → List Bool →
    Option (Option (String × Snapshot)) → Except PyErr MultiOut
  | 0, _, _, st, w, traces, flags, last =>
    match last with
    | some v =>
      Except.ok { ret := v, stFinal := st, world := w, traces := traces, flags := flags }
    | none => Except.error PyErr.unboundLocal
  | n + 1, i, rot, st, w, traces, flags, _ =>
    let st1 := updateOutputPaths st (iterDir st i)
    match run env st1 w rot exportOrthomosaic with
    | Except.error e => Except.error e
    | Except.ok none =>
      runMultiGo env exportOrthomosaic n (i + 1) false
        (setInputImagesMetadataFile st1 MetaRef.pynone) w
        (traces ++ [none]) (flags ++ [rot]) (some none)
    | Except.ok (some r) =>
      runMultiGo env exportOrthomosaic n (i + 1) false
        (setInputImagesMetadataFile st1 (MetaRef.pathAndFrame r.nuthedPath r.unaligned))
        r.world (traces ++ [some r.trace]) (flags ++ [rot])
        (some (some (r.nuthedPath, r.unaligned)))

/-- Pipeline.run_multi (hsfm/pipeline/pipeline.py lines 127-146). -/
def runMulti (env : Env) (st : PState) (w : World)
    (iterations : Nat) (exportOrthomosaic : Bool) : Except PyErr MultiOut :=
  runMultiGo env exportOrthomosaic iterations 0 st.rotation_enabled st w [] [] none

/-- A point (longitude, latitude) of the camera-positions table read by
`calculate_heading_from_metadata` (hsfm/batch/batch.py lines 137-167). -/
abbrev Pt := Int × Int

/-- Adjacent pairs of a list, the pairs the heading loop tries to compute
a heading from. -/
def adjPairs : List Pt → List (Pt × Pt)
  | [] => []
  | [_] => []
  | p :: q :: rest => (p, q) :: adjPairs (q :: rest)

/-- The loop body of `calculate_heading_from_metadata`.  `lastH` is the
current binding of the Python local `heading` (`none` while unbound).  At
index `i` the `try` block reads position `i+1` (an `IndexError` at the last
element) and calls `hsfm.geospatial.calculate_heading` (abstracted as the
oracle `ch`, `none` modelling an exception); the bare `except` appends the
previous `heading`, which is a `NameError` if no heading was ever bound. -/
def headingsGo (ch : Pt → Pt → Option Int) :
    Option Int → List Pt → Except PyErr (List Int)
  | lastH, [] =>
    match lastH with
    | _ => Except.ok []
  | lastH, [_] =>
    match lastH with
    | some h => Except.ok [h]
    | none => Except.error PyErr.unboundLocal
  | lastH, p :: q :: rest =>
    match ch p q with
    | some h =>
      match headingsGo ch (some h) (q :: rest) with
      | Except.ok tl => Except.ok (h :: tl)
      | Except.error e => Except.error e
    | none =>
      match lastH with
      | some h =>
        match headingsGo ch (some h) (q :: rest) with
        | Except.ok tl => Except.ok (h :: tl)
        | Except.error e => Except.error e
      | none => Except.error PyErr.unboundLocal

/-- calculate_heading_from_metadata (hsfm/batch/batch.py lines 137-167),
restricted to the heading column it appends: one heading per input
position, computed from consecutive positions. -/
def calculateHeadingFromMetadata (ch : Pt → Pt → Option Int)
    (positions : List Pt) : Except PyErr (List Int) :=
  headingsGo ch none positions

/-- The flag sequence `run_multi` hands to its iterations: the constructor's
flag first, then `false` for every later iteration. -/
def rotFlags (rot : Bool) : Nat → List Bool
  | 0 => []
  | n + 1 => rot :: rotFlags false n

/-- All artifact paths one `run` may write, in terms of the pipeline
fields: the input metadata CSV itself (overwritten by the yaw/pitch/roll
reset), the orthomosaics, the four stage CSVs, the clipped reference DEM
and the four offset plots. -/
def runWritePaths (st : PState) : List String :=
  [ metaRefPathD st.input_images_metadata_file,
    pathJoin st.output_path "orthomosaic.tif",
    st.bundle_adjusted_metadata_file,
    st.bundle_adjusted_unaligned_metadata_file,
    pathJoin st.output_path "initial_vs_bundle_adj_offsets.png",
    st.clipped_reference_dem_file,
    st.aligned_bundle_adjusted_metadata_file,
    pathJoin st.output_path "bundle_adj__vs_bundle_adj_and_aligned_offsets.png",
    st.nuthed_aligned_bundle_adjusted_metadata_file,
    pathJoin st.output_path "bundle_adj_and_aligned_vs_bundle_adj_and_aligned_and_nuthed_offsets.png",
    pathJoin st.output_path "og_vs_final_offsets.png",
    pathJoin st.output_path "orthomosaic_final.tif" ]

/-- What a one-iteration `run_multi` assembles from the single `run` it
performs (for comparison with a direct `run` call): the returned pair, the
final field state with the run's return value stored into
`input_images_metadata_file`, and singleton trace/flag lists. -/
def multiOutOfSingle (st1 : PState) (w : World) (rot : Bool) :
    Option RunResult → MultiOut
  | none =>
    { ret := none
      stFinal := setInputImagesMetadataFile st1 MetaRef.pynone
      world := w
      traces := [none]
      flags := [rot] }
  | some r =>
    { ret := some (r.nuthedPath, r.unaligned)
      stFinal := setInputImagesMetadataFile st1
        (MetaRef.pathAndFrame r.nuthedPath r.unaligned)
      world := r.world
      traces := [some r.trace]
      flags := [rot] }

/-! ### Concrete instances used by the closed theorems -/

/-- A concrete input camera record with nonzero orientation. -/
def rec0 : CamRec := { lat := 4, lon := 5, alt := 6, yaw := 7, pitch := 8, roll := 9 }

/-- A concrete reference DEM raster with a large footprint. -/
def refX : Raster := { bounds := { xmin := 0, ymin := 0, xmax := 100, ymax := 100 }, data := 1 }

/-- A concrete extracted DEM raster contained in `refX`. -/
def demX : Raster := { bounds := { xmin := 10, ymin := 10, xmax := 20, ymax := 20 }, data := 100 }

/-- A concrete pipeline configuration (rotation enabled, as by default). -/
def stX : PState :=
  mkPipeline "images" "ref.tif" 4 4 2 "proj" "out" "input_metadata.csv" true

/-- The same configuration constructed with rotation_enabled = false. -/
def stRot : PState :=
  mkPipeline "images" "ref.tif" 4 4 2 "proj" "out" "input_metadata.csv" false

/-- A concrete starting filesystem: the input metadata CSV and the
reference DEM. -/
def wX : World :=
  [("input_metadata.csv", Content.snap [rec0]), ("ref.tif", Content.raster refX)]

/-- A concrete activated environment whose collaborators keep footprints
inside the reference DEM, so both containment tests succeed. -/
def envGood : Env :=
  { activated := true
    solve := fun s _ => (7, { id := 3 }, s, [])
    rasterize := fun _ => demX
    clip := fun d r => { bounds := d.bounds, data := r.data + 50 }
    pcAlign := fun d _ => ({ bounds := d.bounds, data := d.data + 1 }, { id := 9 })
    metadataTransform := fun s _ => s.map (fun c => { c with lat := c.lat + 1 })
    demAlign := fun _ d => ({ bounds := d.bounds, data := 77 },
      { bounds := d.bounds, data := 78 }, { dx := 1, dy := 2, dz := 3, crs := 32610 })
    reproject := fun _ _ p => p }

/-- Like `envGood`, except the point-cloud aligner returns a DEM whose
footprint sticks out of the reference DEM, so the step-8 containment test
fails although the step-5 one succeeded. -/
def envC4 : Env :=
  { envGood with
    pcAlign := fun d _ =>
      ({ bounds := { xmin := -5, ymin := -5, xmax := 200, ymax := 200 }, data := d.data + 1 },
       { id := 9 }) }

/-- A concrete environment whose SfM engine reports it is not activated. -/
def envOff : Env := { envGood with activated := false }

/-- A concrete reprojection oracle that acts as the identity between
WGS84 and EPSG:32610 but translates longitudes by 1000 whenever EPSG:32611
is involved, so the two CRSs are observably different. -/
def reprojX : Nat → Nat → Int × Int → Int × Int := fun a b p =>
  if a = 32611 ∨ b = 32611 then (p.1 + 1000, p.2) else p

/-- A concrete co-registration shift expressed in EPSG:32611, a CRS other
than the hardcoded EPSG:32610. -/
def shiftX : Shift := { dx := 1, dy := 2, dz := 3, crs := 32611 }

/-- The successful run result of `envGood` on `stX`/`wX` (used to
instantiate theorems with hypotheses at a concrete input). -/
def rrGood : RunResult :=
  match run envGood stX wX true true with
  | Except.ok (some r) => r
  | _ => default

/-- The outcome of a one-iteration `run_multi` of `envGood` on `stX`. -/
def moGood : MultiOut :=
  match runMulti envGood stX wX 1 true with
  | Except.ok o => o
  | _ => default

/-- The outcome of a one-iteration `run_multi` on the
rotation-disabled configuration `stRot`. -/
def moRot : MultiOut :=
  match runMulti envGood stRot wX 1 true with
  | Except.ok o => o
  | _ => default

/-- A concrete heading oracle: the difference of the longitudes. -/
def chEx : Pt → Pt → Option Int := fun p q => some (q.1 - p.1)

/-- A concrete list of camera positions. -/
def ptsEx : List Pt := [(0, 0), (1, 0), (5, 0)]

/-! ### Helper lemmas about the filesystem model -/

theorem lookup_write_self (w : World) (p : String) (c : Content) :
    lookup (write w p c) p = some c := by
  simp [lookup, write]

theorem lookup_write_ne (w : World) (p q : String) (c : Content) (h : q ≠ p) :
    lookup (write w q c) p = lookup w p := by
  simp [lookup, write, h]

theorem readRaster_write_self (w : World) (p : String) (r : Raster) :
    readRaster (write w p (Content.raster r)) p = Except.ok r := by
  simp [readRaster, lookup_write_self]

theorem readRaster_write_not_raster (w : World) (p q : String) (c : Content)
    (hc : ∀ r, c ≠ Content.raster r) (x : Raster)
    (h : readRaster (write w q c) p = Except.ok x) :
    readRaster w p = Except.ok x := by
  by_cases hqp : q = p
  · subst hqp
    rw [readRaster, lookup_write_self] at h
    cases c with
    | raster r => exact absurd rfl (hc r)
    | snap s => simp at h
    | plot t => simp at h
    | other i => simp at h
  · rwa [readRaster, lookup_write_ne w p q c hqp] at h

theorem lookup_append_not_mem (l : World) (w : World) (p : String)
    (h : ∀ e ∈ l, e.1 ≠ p) : lookup (l ++ w) p = lookup w p := by
  induction l with
  | nil => rfl
  | cons e rest ih =>
    have he : e.1 ≠ p := h e (List.mem_cons_self e rest)
    simp only [List.cons_append, lookup, he, if_neg he]
    exact ih (fun x hx => h x (List.mem_cons_of_mem e hx))

theorem wput_w (ws : WT) (p : String) (c : Content) :
    (wput ws p c).w = write ws.w p c := rfl

theorem wput_tr (ws : WT) (p : String) (c : Content) :
    (wput ws p c).tr = ws.tr ++ [(p, c)] := rfl

theorem readSnap_ok {w : World} {p : String} {s : Snapshot}
    (h : readSnap w p = Except.ok s) : lookup w p = some (Content.snap s) := by
  unfold readSnap at h
  split at h
  · rename_i s2 hl
    injection h with h2
    rw [← h2]
    exact hl
  · simp at h

theorem frame_of_world_eq {w1 w : World} {l : List (String × Content)}
    (hw : w1 = l.reverse ++ w) (p : String) (hp : ∀ e ∈ l, e.1 ≠ p) :
    lookup w1 p = lookup w p := by
  rw [hw]
  exact lookup_append_not_mem _ _ _ (fun e he => hp e (List.mem_reverse.mp he))

/-! ### Claim theorems -/

/-- C1: false of the code as written.  `run` returns the tuple
(nuthed metadata path, unaligned-camera table) and `run_multi` stores that
whole tuple into `input_images_metadata_file`, so the value fed into
iteration 1 is the pair — not the nuth-aligned snapshot path — and
iteration 1's first `pd.read_csv` of it raises, making every
`run_multi(iterations >= 2)` fail.  Evaluated here at a concrete activated
pipeline: after one iteration the input reference is the pair, and the
two-iteration run errors with the invalid-file-buffer error. -/
theorem c1_run_multi_feeds_pair_and_crashes :
    (runMulti envGood stX wX 1 true).map
        (fun o => o.stFinal.input_images_metadata_file)
      = Except.ok (MetaRef.pathAndFrame "out/0/nuth_aligned_bundle_adj_metadata.csv" []) ∧
    runMulti envGood stX wX 2 true = Except.error PyErr.invalidFileBuffer := by
  exact ⟨by decide, by decide⟩

/-- C2 counterexample: the claim "the input snapshot file supplied to run
is left unchanged by the run" is false.  On a concrete run, the input
metadata file starts with yaw = 7 and after the run the same path holds
the orientation-zeroed snapshot (`_reset_yaw_pitch_roll` re-opens and
rewrites it in place). -/
theorem c2_input_snapshot_mutated :
    lookup wX "input_metadata.csv" = some (Content.snap [rec0]) ∧
    rec0.yaw = 7 ∧
    (run envGood stX wX true true).map
        (Option.map (fun r => lookup r.world "input_metadata.csv"))
      = Except.ok (some (some (Content.snap
          [{ lat := 4, lon := 5, alt := 6, yaw := 0, pitch := 0, roll := 0 }]))) := by
  exact ⟨by decide, by decide, by decide⟩

/-- C2 as amended: within one `run`, every file write goes to one of the
fixed artifact paths (`runWritePaths`), all other files are untouched —
but the very first write re-opens the input snapshot file and overwrites
it in place with its orientation-zeroed copy, so the input snapshot is not
left unchanged and snapshot files are not write-once. -/
theorem c2_writes_localized (env : Env) (st : PState) (w : World) (rot eo : Bool)
    (r : RunResult) (h : run env st w rot eo = Except.ok (some r)) :
    ∃ ip s0, st.input_images_metadata_file = MetaRef.path ip ∧
      lookup w ip = some (Content.snap s0) ∧
      r.trace.writes.head? = some (ip, Content.snap (resetYpr s0)) ∧
      r.world = r.trace.writes.reverse ++ w ∧
      (∀ e ∈ r.trace.writes, e.1 ∈ runWritePaths st) ∧
      (∀ p, (∀ e ∈ r.trace.writes, e.1 ≠ p) → lookup r.world p = lookup w p) := by
  cases hact : env.activated with
  | false => rw [run] at h; simp [hact] at h
  | true =>
    cases hin : st.input_images_metadata_file with
    | pathAndFrame p s => rw [run] at h; simp [hact, hin] at h
    | pynone => rw [run] at h; simp [hact, hin] at h
    | path ip =>
      cases hrs : readSnap w ip with
      | error e => rw [run] at h; simp [hact, hin, hrs] at h
      | ok s0 =>
        cases heo : eo with
        | true =>
          rw [run] at h
          simp only [hact, hin, hrs, heo, if_true, Bool.false_eq_true, if_false] at h
          split at h
          · simp at h
          · rename_i ref5 hr5
            cases hc5 : Bounds.containsB ref5.bounds
                (env.rasterize (env.solve (resetYpr s0) rot).2.1).bounds with
            | true =>
              simp only [hc5, if_true] at h
              split at h
              · simp at h
              · rename_i ref8 hr8
                cases hc8 : Bounds.containsB ref8.bounds
                    (env.pcAlign (env.rasterize (env.solve (resetYpr s0) rot).2.1) (env.clip (env.rasterize (env.solve (resetYpr s0) rot).2.1) ref5)).1.bounds with
                | true =>
                  simp only [hc8, if_true] at h
                  split at h
                  · simp at h
                  · rename_i nuthRef hnuth
                    simp only [Except.ok.injEq, Option.some.injEq] at h
                    subst h
                    refine ⟨ip, s0, rfl, readSnap_ok hrs, by simp [wput_tr],
                      by simp [wput_w, wput_tr, write], ?_, ?_⟩
                    · intro e he
                      simp only [wput_tr, List.cons_append, List.nil_append,
                        List.append_nil] at he
                      fin_cases he <;> simp [runWritePaths, metaRefPathD, hin]
                    · intro p hp
                      refine frame_of_world_eq ?_ p hp
                      simp [wput_w, wput_tr, write]
                | false =>
                  simp only [hc8, Bool.false_eq_true, if_false] at h
                  simp only [Except.ok.injEq, Option.some.injEq] at h
                  subst h
                  refine ⟨ip, s0, rfl, readSnap_ok hrs, by simp [wput_tr],
                    by simp [wput_w, wput_tr, write], ?_, ?_⟩
                  · intro e he
                    simp only [wput_tr, List.cons_append, List.nil_append,
                      List.append_nil] at he
                    fin_cases he <;> simp [runWritePaths, metaRefPathD, hin]
                  · intro p hp
                    refine frame_of_world_eq ?_ p hp
                    simp [wput_w, wput_tr, write]
            | false =>
              simp only [hc5, Bool.false_eq_true, if_false] at h
              split at h
              · simp at h
              · rename_i ref8 hr8
                cases hc8 : Bounds.containsB ref8.bounds
                    (env.pcAlign (env.rasterize (env.solve (resetYpr s0) rot).2.1) ref5).1.bounds with
                | true =>
                  simp only [hc8, if_true] at h
                  split at h
                  · simp at h
                  · rename_i nuthRef hnuth
                    simp only [Except.ok.injEq, Option.some.injEq] at h
                    subst h
                    refine ⟨ip, s0, rfl, readSnap_ok hrs, by simp [wput_tr],
                      by simp [wput_w, wput_tr, write], ?_, ?_⟩
                    · intro e he
                      simp only [wput_tr, List.cons_append, List.nil_append,
                        List.append_nil] at he
                      fin_cases he <;> simp [runWritePaths, metaRefPathD, hin]
                    · intro p hp
                      refine frame_of_world_eq ?_ p hp
                      simp [wput_w, wput_tr, write]
                | false =>
                  simp only [hc8, Bool.false_eq_true, if_false] at h
                  simp only [Except.ok.injEq, Option.some.injEq] at h
                  subst h
                  refine ⟨ip, s0, rfl, readSnap_ok hrs, by simp [wput_tr],
                    by simp [wput_w, wput_tr, write], ?_, ?_⟩
                  · intro e he
                    simp only [wput_tr, List.cons_append, List.nil_append,
                      List.append_nil] at he
                    fin_cases he <;> simp [runWritePaths, metaRefPathD, hin]
                  · intro p hp
                    refine frame_of_world_eq ?_ p hp
                    simp [wput_w, wput_tr, write]
        | false =>
          rw [run] at h
          simp only [hact, hin, hrs, heo, if_true, Bool.false_eq_true, if_false] at h
          split at h
          · simp at h
          · rename_i ref5 hr5
            cases hc5 : Bounds.containsB ref5.bounds
                (env.rasterize (env.solve (resetYpr s0) rot).2.1).bounds with
            | true =>
              simp only [hc5, if_true] at h
              split at h
              · simp at h
              · rename_i ref8 hr8
                cases hc8 : Bounds.containsB ref8.bounds
                    (env.pcAlign (env.rasterize (env.solve (resetYpr s0) rot).2.1) (env.clip (env.rasterize (env.solve (resetYpr s0) rot).2.1) ref5)).1.bounds with
                | true =>
                  simp only [hc8, if_true] at h
                  split at h
                  · simp at h
                  · rename_i nuthRef hnuth
                    simp only [Except.ok.injEq, Option.some.injEq] at h
                    subst h
                    refine ⟨ip, s0, rfl, readSnap_ok hrs, by simp [wput_tr],
                      by simp [wput_w, wput_tr, write], ?_, ?_⟩
                    · intro e he
                      simp only [wput_tr, List.cons_append, List.nil_append,
                        List.append_nil] at he
                      fin_cases he <;> simp [runWritePaths, metaRefPathD, hin]
                    · intro p hp
                      refine frame_of_world_eq ?_ p hp
                      simp [wput_w, wput_tr, write]
                | false =>
                  simp only [hc8, Bool.false_eq_true, if_false] at h
                  simp only [Except.ok.injEq, Option.some.injEq] at h
                  subst h
                  refine ⟨ip, s0, rfl, readSnap_ok hrs, by simp [wput_tr],
                    by simp [wput_w, wput_tr, write], ?_, ?_⟩
                  · intro e he
                    simp only [wput_tr, List.cons_append, List.nil_append,
                      List.append_nil] at he
                    fin_cases he <;> simp [runWritePaths, metaRefPathD, hin]
                  · intro p hp
                    refine frame_of_world_eq ?_ p hp
                    simp [wput_w, wput_tr, write]
            | false =>
              simp only [hc5, Bool.false_eq_true, if_false] at h
              split at h
              · simp at h
              · rename_i ref8 hr8
                cases hc8 : Bounds.containsB ref8.bounds
                    (env.pcAlign (env.rasterize (env.solve (resetYpr s0) rot).2.1) ref5).1.bounds with
                | true =>
                  simp only [hc8, if_true] at h
                  split at h
                  · simp at h
                  · rename_i nuthRef hnuth
                    simp only [Except.ok.injEq, Option.some.injEq] at h
                    subst h
                    refine ⟨ip, s0, rfl, readSnap_ok hrs, by simp [wput_tr],
                      by simp [wput_w, wput_tr, write], ?_, ?_⟩
                    · intro e he
                      simp only [wput_tr, List.cons_append, List.nil_append,
                        List.append_nil] at he
                      fin_cases he <;> simp [runWritePaths, metaRefPathD, hin]
                    · intro p hp
                      refine frame_of_world_eq ?_ p hp
                      simp [wput_w, wput_tr, write]
                | false =>
                  simp only [hc8, Bool.false_eq_true, if_false] at h
                  simp only [Except.ok.injEq, Option.some.injEq] at h
                  subst h
                  refine ⟨ip, s0, rfl, readSnap_ok hrs, by simp [wput_tr],
                    by simp [wput_w, wput_tr, write], ?_, ?_⟩
                  · intro e he
                    simp only [wput_tr, List.cons_append, List.nil_append,
                      List.append_nil] at he
                    fin_cases he <;> simp [runWritePaths, metaRefPathD, hin]
                  · intro p hp
                    refine frame_of_world_eq ?_ p hp
                    simp [wput_w, wput_tr, write]

/-- C2 amended witness: the theorem instantiated at the concrete
successful run of `envGood` on `stX`/`wX`. -/
theorem c2_writes_localized_witness :
    ∃ ip s0, stX.input_images_metadata_file = MetaRef.path ip ∧
      lookup wX ip = some (Content.snap s0) ∧
      rrGood.trace.writes.head? = some (ip, Content.snap (resetYpr s0)) ∧
      rrGood.world = rrGood.trace.writes.reverse ++ wX ∧
      (∀ e ∈ rrGood.trace.writes, e.1 ∈ runWritePaths stX) ∧
      (∀ p, (∀ e ∈ rrGood.trace.writes, e.1 ≠ p) →
        lookup rrGood.world p = lookup wX p) :=
  c2_writes_localized envGood stX wX true true rrGood (by decide)


/-- C3: the code does not abort.  With the SfM engine not activated, `run`
evaluates the bare name `exit` (a no-op) and returns None; `run_multi`
stores None and keeps looping.  At a concrete two-iteration call: both
iterations are attempted (two trace entries, two rotation flags), no stage
ever runs (the filesystem is unchanged), and the caller receives None
rather than an error. -/
theorem c3_unactivated_continues_iterations :
    (runMulti envOff stX wX 2 true).map MultiOut.ret = Except.ok none ∧
    (runMulti envOff stX wX 2 true).map MultiOut.world = Except.ok wX ∧
    (runMulti envOff stX wX 2 true).map MultiOut.traces = Except.ok [none, none] ∧
    (runMulti envOff stX wX 2 true).map MultiOut.flags = Except.ok [true, false] := by
  exact ⟨by decide, by decide, by decide, by decide⟩

/-- C4 counterexample: the containment decision is re-evaluated at step 8
against the aligned DEM, so it can differ from step 5's.  In `envC4` the
reference DEM contains the extracted DEM (step 5 clips: c5 = true and the
point-cloud alignment uses the clipped raster) but the aligned DEM sticks
out (c8 = false), so the co-registration stage uses the full reference
DEM — not the clipped file the claim requires. -/
theorem c4_clip_decision_differs :
    (run envC4 stX wX true true).map (Option.map (fun r =>
        (r.trace.c5, r.trace.c8, r.trace.pcAlignRefUsed, r.trace.nuthRefUsed)))
      = Except.ok (some (true, false, { bounds := demX.bounds, data := 51 }, refX)) ∧
    ({ bounds := demX.bounds, data := 51 } : Raster) ≠ refX := by
  exact ⟨by decide, by decide⟩

/-- C4 as amended: the clipped-versus-full decision is re-evaluated at the
co-registration stage against the aligned DEM's footprint (step 5 tests the
extracted DEM's footprint), so the two decisions need not agree; whenever
they do agree, the stages use the same reference raster — the clipped
raster written at step 5 when both tests hold, the full reference DEM when
both fail. -/
theorem c4_same_decision_same_reference (env : Env) (st : PState) (w : World)
    (rot eo : Bool) (r : RunResult)
    (h : run env st w rot eo = Except.ok (some r))
    (heq : r.trace.c5 = r.trace.c8) :
    r.trace.nuthRefUsed = r.trace.pcAlignRefUsed ∧
    (r.trace.c5 = true → r.trace.clippedWritten = some r.trace.pcAlignRefUsed) ∧
    (r.trace.c5 = false → r.trace.pcAlignRefUsed = r.trace.refDemAt5) := by
  cases hact : env.activated with
  | false => rw [run] at h; simp [hact] at h
  | true =>
    cases hin : st.input_images_metadata_file with
    | pathAndFrame p s => rw [run] at h; simp [hact, hin] at h
    | pynone => rw [run] at h; simp [hact, hin] at h
    | path ip =>
      cases hrs : readSnap w ip with
      | error e => rw [run] at h; simp [hact, hin, hrs] at h
      | ok s0 =>
        rw [run] at h
        simp only [hact, hin, hrs, if_true] at h
        split at h
        · simp at h
        · rename_i ref5 hr5
          cases hc5 : Bounds.containsB ref5.bounds
              (env.rasterize (env.solve (resetYpr s0) rot).2.1).bounds with
          | true =>
            simp only [hc5, if_true] at h
            split at h
            · simp at h
            · rename_i ref8 hr8
              cases hc8 : Bounds.containsB ref8.bounds
                  (env.pcAlign (env.rasterize (env.solve (resetYpr s0) rot).2.1)
                    (env.clip (env.rasterize (env.solve (resetYpr s0) rot).2.1) ref5)).1.bounds with
              | true =>
                simp only [hc8, if_true] at h
                split at h
                · simp at h
                · rename_i nuthRef hnuth
                  simp only [Except.ok.injEq, Option.some.injEq] at h
                  subst h
                  refine ⟨?_, fun _ => rfl, fun hx => by simp at hx⟩
                  simp only [wput_w] at hnuth
                  have h1 := readRaster_write_not_raster _ _ _ _
                    (fun rr => by simp) _ hnuth
                  have h2 := readRaster_write_not_raster _ _ _ _
                    (fun rr => by simp) _ h1
                  have h3 := readRaster_write_not_raster _ _ _ _
                    (fun rr => by simp) _ h2
                  rw [readRaster_write_self] at h3
                  injection h3 with h4
                  exact h4.symm
              | false =>
                simp only [hc8, Bool.false_eq_true, if_false] at h
                simp only [Except.ok.injEq, Option.some.injEq] at h
                subst h
                simp at heq
          | false =>
            simp only [hc5, Bool.false_eq_true, if_false] at h
            split at h
            · simp at h
            · rename_i ref8 hr8
              cases hc8 : Bounds.containsB ref8.bounds
                  (env.pcAlign (env.rasterize (env.solve (resetYpr s0) rot).2.1) ref5).1.bounds with
              | true =>
                simp only [hc8, if_true] at h
                split at h
                · simp at h
                · rename_i nuthRef hnuth
                  simp only [Except.ok.injEq, Option.some.injEq] at h
                  subst h
                  simp at heq
              | false =>
                simp only [hc8, Bool.false_eq_true, if_false] at h
                simp only [Except.ok.injEq, Option.some.injEq] at h
                subst h
                refine ⟨?_, fun hx => by simp at hx, fun _ => rfl⟩
                simp only [wput_w] at hr8 hr5
                have h1 := readRaster_write_not_raster _ _ _ _
                  (fun rr => by simp) _ hr8
                have h2 := readRaster_write_not_raster _ _ _ _
                  (fun rr => by simp) _ h1
                have h3 := readRaster_write_not_raster _ _ _ _
                  (fun rr => by simp) _ h2
                rw [hr5] at h3
                injection h3 with h4
                exact h4.symm

/-- C4 amended witness: the theorem instantiated at the concrete run of
`envGood`, where both containment tests hold. -/
theorem c4_same_decision_same_reference_witness :
    rrGood.trace.nuthRefUsed = rrGood.trace.pcAlignRefUsed ∧
    (rrGood.trace.c5 = true →
      rrGood.trace.clippedWritten = some rrGood.trace.pcAlignRefUsed) ∧
    (rrGood.trace.c5 = false →
      rrGood.trace.pcAlignRefUsed = rrGood.trace.refDemAt5) :=
  c4_same_decision_same_reference envGood stX wX true true rrGood
    (by decide) (by decide)

/-- C5 counterexample: during iteration 0 of a concrete `run_multi`, the
clipped reference DEM is written to the original-level path
`out/reference_dem_clipped.tif`, which is not the iteration-namespaced
location `out/0/reference_dem_clipped.tif` — so not every artifact of
iteration i is placed under a path namespaced by i. -/
theorem c5_clipped_dem_not_namespaced :
    (runMulti envGood stX wX 1 true).map (fun o =>
        o.traces.map (Option.map (fun t => t.writes.any (fun e =>
          decide (e.1 = pathJoin stX.original_output_path "reference_dem_clipped.tif")))))
      = Except.ok [some true] ∧
    pathJoin stX.original_output_path "reference_dem_clipped.tif"
      ≠ pathJoin (iterDir stX 0) "reference_dem_clipped.tif" := by
  exact ⟨by decide, by decide⟩

/-- C6 counterexample: iteration 0 does not always run with rotation
enabled; `run_multi` initializes the flag from the constructor parameter.
For a pipeline constructed with rotation_enabled = false, the single
iteration invokes the SfM engine with the flag false. -/
theorem c6_rotation_follows_constructor :
    stRot.rotation_enabled = false ∧
    (runMulti envGood stRot wX 1 true).map MultiOut.flags = Except.ok [false] := by
  exact ⟨rfl, by decide⟩

/-- C7 counterexample: on identical inputs, `run_multi(iterations = 1)`
returns the iteration-0-namespaced metadata path while a direct
`run(rotation_enabled = True)` returns the top-level one, so the returned
results (and the artifact locations) are not identical. -/
theorem c7_run_multi_one_differs :
    (runMulti envGood stX wX 1 true).map (fun o => o.ret.map Prod.fst)
      = Except.ok (some "out/0/nuth_aligned_bundle_adj_metadata.csv") ∧
    (run envGood stX wX true true).map (Option.map RunResult.nuthedPath)
      = Except.ok (some "out/nuth_aligned_bundle_adj_metadata.csv") ∧
    ("out/0/nuth_aligned_bundle_adj_metadata.csv" : String)
      ≠ "out/nuth_aligned_bundle_adj_metadata.csv" := by
  exact ⟨by decide, by decide, by decide⟩

/-- C8 counterexample: the shift application does not reproject into the
CRS the shift is expressed in.  For a shift expressed in EPSG:32611 and a
reprojection oracle that distinguishes 32611, the code's result (which
goes through the hardcoded EPSG:32610) differs from the claim's
description; the code's horizontal result here is just (dx, dy) added in
place, while dz is added to the altitude. -/
theorem c8_shift_crs_ignored :
    applyNuthShift reprojX shiftX [rec0] ≠ applyShiftSpecCRS reprojX shiftX [rec0] ∧
    applyNuthShift reprojX shiftX [rec0]
      = [{ rec0 with lon := rec0.lon + 1, lat := rec0.lat + 2, alt := rec0.alt + 3 }] := by
  exact ⟨by decide, by decide⟩

/-- C10: calling `run_multi` with iterations = 0 never binds the Python
local `updated_cameras`, so the final `return updated_cameras` raises
`UnboundLocalError` for every environment, pipeline state and filesystem:
`run_multi` has the unstated precondition iterations >= 1. -/
theorem c10_run_multi_zero_unbound_local (env : Env) (st : PState) (w : World)
    (eo : Bool) : runMulti env st w 0 eo = Except.error PyErr.unboundLocal := rfl

/-- C8 as amended: the shift application reprojects each camera's
horizontal coordinates from WGS84 into the fixed CRS EPSG:32610 — equal to
the spec-worded application only when the shift's CRS is taken to be
32610 — and the CRS the shift actually carries is ignored entirely, while
dz is added directly to each altitude with no vertical reprojection. -/
theorem c8_shift_via_fixed_utm :
    (∀ (rp : Nat → Nat → Int × Int → Int × Int) (sh : Shift) (s : Snapshot),
      applyNuthShift rp sh s = applyShiftSpecCRS rp { sh with crs := epsgUTM10 } s) ∧
    (∀ (rp : Nat → Nat → Int × Int → Int × Int) (sh : Shift) (c : Nat) (s : Snapshot),
      applyNuthShift rp { sh with crs := c } s = applyNuthShift rp sh s) ∧
    (∀ (rp : Nat → Nat → Int × Int → Int × Int) (sh : Shift) (s : Snapshot) (i : Nat),
      ((applyNuthShift rp sh s).get? i).map CamRec.alt
        = (s.get? i).map (fun r => r.alt + sh.dz)) := by
  refine ⟨fun rp sh s => rfl, fun rp sh c s => rfl, fun rp sh s i => ?_⟩
  rw [applyNuthShift, List.get?_map]
  cases s.get? i with
  | none => rfl
  | some r => rfl

/-- Index-shift step for the last-two-equal property used by the heading
theorem. -/
theorem lastTwoEq_cons (a : Int) (ls : List Int) (h : 2 ≤ ls.length) :
    ((a :: ls).get? ((a :: ls).length - 1) = (a :: ls).get? ((a :: ls).length - 2))
      ↔ (ls.get? (ls.length - 1) = ls.get? (ls.length - 2)) := by
  obtain ⟨n, hn⟩ : ∃ n, ls.length = n + 2 := ⟨ls.length - 2, by omega⟩
  rw [List.length_cons, hn]
  simp only [Nat.add_sub_cancel]
  have h2 : n + 2 + 1 - 2 = n + 1 := by omega
  have h3 : n + 2 - 1 = n + 1 := by omega
  have h5 : n + 2 = (n + 1) + 1 := rfl
  rw [h2, h3, h5, List.get?_cons_succ, List.get?_cons_succ]

/-- Inductive invariant of the heading loop: once a heading is bound, the
loop never fails when all remaining pairwise computations succeed, it
produces one heading per remaining position, and the final two entries of
the incoming heading consed onto the output coincide. -/
theorem headingsGo_some_ok (ch : Pt → Pt → Option Int) :
    ∀ (l : List Pt) (h : Int),
      (∀ pr ∈ adjPairs l, (ch pr.1 pr.2).isSome) →
      ∃ hs, headingsGo ch (some h) l = Except.ok hs ∧ hs.length = l.length ∧
        (h :: hs).get? ((h :: hs).length - 1) = (h :: hs).get? ((h :: hs).length - 2) := by
  intro l
  induction l with
  | nil =>
    intro h _
    exact ⟨[], rfl, rfl, rfl⟩
  | cons p rest ih =>
    intro h hsucc
    cases rest with
    | nil =>
      exact ⟨[h], rfl, rfl, rfl⟩
    | cons q rest2 =>
      have hpq : (ch p q).isSome := hsucc (p, q) (by simp [adjPairs])
      obtain ⟨h2, hh2⟩ : ∃ h2, ch p q = some h2 :=
        Option.isSome_iff_exists.mp hpq
      have hsucc2 : ∀ pr ∈ adjPairs (q :: rest2), (ch pr.1 pr.2).isSome := by
        intro pr hpr
        have hadj : adjPairs (p :: q :: rest2) = (p, q) :: adjPairs (q :: rest2) := rfl
        exact hsucc pr (by rw [hadj]; exact List.mem_cons_of_mem _ hpr)
      obtain ⟨tl, htl, hlen, hlast⟩ := ih h2 hsucc2
      refine ⟨h2 :: tl, ?_, ?_, ?_⟩
      · simp only [headingsGo, hh2, htl]
      · simp [hlen]
      · have hlen2 : 2 ≤ (h2 :: tl).length := by
          simp only [List.length_cons]
          have : tl.length = rest2.length + 1 := by
            simpa using hlen
          omega
        exact (lastTwoEq_cons h (h2 :: tl) hlen2).mpr hlast

/-- C9: when the positions table has at least two rows and every pairwise
heading computation succeeds, `calculate_heading_from_metadata` succeeds,
assigns one heading per row, and gives the last row a heading equal to the
previous row's heading. -/
theorem c9_last_heading_equals_previous (ch : Pt → Pt → Option Int)
    (l : List Pt) (hlen : 2 ≤ l.length)
    (hsucc : ∀ pr ∈ adjPairs l, (ch pr.1 pr.2).isSome) :
    ∃ hs, calculateHeadingFromMetadata ch l = Except.ok hs ∧
      hs.length = l.length ∧
      hs.get? (hs.length - 1) = hs.get? (hs.length - 2) ∧
      (hs.get? (hs.length - 1)).isSome := by
  match l, hlen with
  | p :: q :: rest, _ =>
    have hpq : (ch p q).isSome := hsucc (p, q) (by
      have hadj : adjPairs (p :: q :: rest) = (p, q) :: adjPairs (q :: rest) := rfl
      rw [hadj]; exact List.mem_cons_self _ _)
    obtain ⟨h2, hh2⟩ : ∃ h2, ch p q = some h2 := Option.isSome_iff_exists.mp hpq
    have hsucc2 : ∀ pr ∈ adjPairs (q :: rest), (ch pr.1 pr.2).isSome := by
      intro pr hpr
      have hadj : adjPairs (p :: q :: rest) = (p, q) :: adjPairs (q :: rest) := rfl
      exact hsucc pr (by rw [hadj]; exact List.mem_cons_of_mem _ hpr)
    obtain ⟨tl, htl, hlen2, hlast⟩ := headingsGo_some_ok ch (q :: rest) h2 hsucc2
    refine ⟨h2 :: tl, ?_, ?_, ?_, ?_⟩
    · simp only [calculateHeadingFromMetadata, headingsGo, hh2, htl]
    · simp [hlen2]
    · exact hlast
    · have htlen : tl.length = rest.length + 1 := by simpa using hlen2
      have hidx : (h2 :: tl).length - 1 < (h2 :: tl).length := by
        simp only [List.length_cons]; omega
      rw [List.get?_eq_get hidx]
      simp

/-- C9 witness: the theorem instantiated at a concrete three-row table
whose pairwise headings all succeed. -/
theorem c9_last_heading_equals_previous_witness :
    ∃ hs, calculateHeadingFromMetadata chEx ptsEx = Except.ok hs ∧
      hs.length = ptsEx.length ∧
      hs.get? (hs.length - 1) = hs.get? (hs.length - 2) ∧
      (hs.get? (hs.length - 1)).isSome :=
  c9_last_heading_equals_previous chEx ptsEx (by decide) (by decide)

/-- Invariant of the `run_multi` loop: the rotation flags handed to the
successive `run` calls are the incoming flag followed by `false` forever
after. -/
theorem runMultiGo_flags (env : Env) (eo : Bool) :
    ∀ (n i : Nat) (rot : Bool) (st : PState) (w : World)
      (traces : List (Option RunTrace)) (flags : List Bool)
      (last : Option (Option (String × Snapshot))) (o : MultiOut),
      runMultiGo env eo n i rot st w traces flags last = Except.ok o →
      o.flags = flags ++ rotFlags rot n := by
  intro n
  induction n with
  | zero =>
    intro i rot st w traces flags last o h
    cases last with
    | none => simp [runMultiGo] at h
    | some v =>
      simp only [runMultiGo] at h
      injection h with h
      rw [← h]
      simp [rotFlags]
  | succ n ih =>
    intro i rot st w traces flags last o h
    simp only [runMultiGo] at h
    cases hr : run env (updateOutputPaths st (iterDir st i)) w rot eo with
    | error e => rw [hr] at h; simp at h
    | ok ro =>
      rw [hr] at h
      cases ro with
      | none =>
        have := ih (i + 1) false _ _ _ _ _ _ h
        rw [this, rotFlags, List.append_assoc]
        rfl
      | some r =>
        have := ih (i + 1) false _ _ _ _ _ _ h
        rw [this, rotFlags, List.append_assoc]
        rfl

/-- Helper for C6: the tail of the flag sequence is all-false. -/
theorem rotFlags_false (n : Nat) : rotFlags false n = List.replicate n false := by
  induction n with
  | zero => rfl
  | succ n ih => rw [rotFlags, ih, List.replicate_succ]

/-- C6 as amended: `run_multi` hands the SfM engine the constructor's
rotation_enabled flag on iteration 0 (not unconditionally true) and false
on every subsequent iteration: for any completed multi-run the flag list
is `rotFlags st.rotation_enabled n`, which is the constructor flag consed
onto n-1 copies of false. -/
theorem c6_rotation_flags :
    (∀ (env : Env) (st : PState) (w : World) (n : Nat) (eo : Bool) (o : MultiOut),
      runMulti env st w n eo = Except.ok o →
      o.flags = rotFlags st.rotation_enabled n) ∧
    (∀ (rot : Bool) (n : Nat),
      rotFlags rot (n + 1) = rot :: List.replicate n false) := by
  constructor
  · intro env st w n eo o h
    have := runMultiGo_flags env eo n 0 st.rotation_enabled st w [] [] none o h
    simpa using this
  · intro rot n
    rw [rotFlags, rotFlags_false]

/-- C6 amended witness: the flag list of the concrete rotation-disabled
one-iteration run is `rotFlags false 1`. -/
theorem c6_rotation_flags_witness :
    moRot.flags = rotFlags stRot.rotation_enabled 1 :=
  c6_rotation_flags.1 envGood stRot wX 1 true moRot (by decide)

/-- Invariant of the `run_multi` loop: neither rebinding the output paths
nor storing a run's return value ever touches the clipped-reference-DEM
path, so the final pipeline state still holds the constructor-time
clipped path. -/
theorem runMultiGo_clipped (env : Env) (eo : Bool) :
    ∀ (n i : Nat) (rot : Bool) (st : PState) (w : World)
      (traces : List (Option RunTrace)) (flags : List Bool)
      (last : Option (Option (String × Snapshot))) (o : MultiOut),
      runMultiGo env eo n i rot st w traces flags last = Except.ok o →
      o.stFinal.clipped_reference_dem_file = st.clipped_reference_dem_file := by
  intro n
  induction n with
  | zero =>
    intro i rot st w traces flags last o h
    cases last with
    | none => simp [runMultiGo] at h
    | some v =>
      simp only [runMultiGo] at h
      injection h with h
      rw [← h]
  | succ n ih =>
    intro i rot st w traces flags last o h
    simp only [runMultiGo] at h
    cases hr : run env (updateOutputPaths st (iterDir st i)) w rot eo with
    | error e => rw [hr] at h; simp at h
    | ok ro =>
      rw [hr] at h
      cases ro with
      | none =>
        exact ih (i + 1) false
          (setInputImagesMetadataFile (updateOutputPaths st (iterDir st i))
            MetaRef.pynone)
          w (traces ++ [none]) (flags ++ [rot]) (some none) o h
      | some r =>
        exact ih (i + 1) false
          (setInputImagesMetadataFile (updateOutputPaths st (iterDir st i))
            (MetaRef.pathAndFrame r.nuthedPath r.unaligned))
          r.world (traces ++ [some r.trace]) (flags ++ [rot])
          (some (some (r.nuthedPath, r.unaligned))) o h

/-- C5 as amended: per iteration i, `run_multi` rebinds the four metadata
CSV paths underneath the iteration directory `original_output_path/i/`,
but the clipped-reference-DEM path is not rebound: it keeps its
constructor-time value through every iteration, so that artifact is
shared by (and overwritten across) iterations rather than namespaced. -/
theorem c5_csv_namespaced_clipped_shared :
    (∀ (st : PState) (i : Nat),
      (updateOutputPaths st (iterDir st i)).bundle_adjusted_metadata_file
        = pathJoin (iterDir st i) "metaflow_bundle_adj_metadata.csv" ∧
      (updateOutputPaths st (iterDir st i)).bundle_adjusted_unaligned_metadata_file
        = pathJoin (iterDir st i) "metaflow_bundle_adj_unaligned_metadata.csv" ∧
      (updateOutputPaths st (iterDir st i)).aligned_bundle_adjusted_metadata_file
        = pathJoin (iterDir st i) "aligned_bundle_adj_metadata.csv" ∧
      (updateOutputPaths st (iterDir st i)).nuthed_aligned_bundle_adjusted_metadata_file
        = pathJoin (iterDir st i) "nuth_aligned_bundle_adj_metadata.csv" ∧
      (updateOutputPaths st (iterDir st i)).clipped_reference_dem_file
        = st.clipped_reference_dem_file) ∧
    (∀ (env : Env) (st : PState) (w : World) (n : Nat) (eo : Bool) (o : MultiOut),
      runMulti env st w n eo = Except.ok o →
      o.stFinal.clipped_reference_dem_file = st.clipped_reference_dem_file) := by
  constructor
  · intro st i
    exact ⟨rfl, rfl, rfl, rfl, rfl⟩
  · intro env st w n eo o h
    exact runMultiGo_clipped env eo n 0 st.rotation_enabled st w [] [] none o h

/-- C5 amended witness: the concrete one-iteration run keeps the
constructor-time clipped path in its final state. -/
theorem c5_csv_namespaced_clipped_shared_witness :
    moGood.stFinal.clipped_reference_dem_file = stX.clipped_reference_dem_file :=
  c5_csv_namespaced_clipped_shared.2 envGood stX wX 1 true moGood (by decide)

/-- C7 as amended: `run_multi(iterations = 1)` is exactly one `run` call
on the configuration with all output paths rebound under the iteration-0
directory, invoked with the constructor's rotation flag; in particular the
same artifacts are produced with the same contents but under the iteration
directory, and the returned metadata path lies under it as well. -/
theorem c7_run_multi_one_is_namespaced_run (env : Env) (st : PState)
    (w : World) (eo : Bool) :
    runMulti env st w 1 eo
      = (run env (updateOutputPaths st (iterDir st 0)) w st.rotation_enabled eo).map
          (multiOutOfSingle (updateOutputPaths st (iterDir st 0)) w
            st.rotation_enabled) := by
  cases hr : run env (updateOutputPaths st (iterDir st 0)) w st.rotation_enabled eo with
  | error e =>
    simp only [runMulti, runMultiGo, hr, Except.map]
  | ok ro =>
    cases ro with
    | none =>
      simp [runMulti, runMultiGo, hr, Except.map, multiOutOfSingle]
    | some r =>
      simp [runMulti, runMultiGo, hr, Except.map, multiOutOfSingle]

end HSFM
